import Mathlib

/-!
Verification of the provider-docker reconciler core: a shallow embedding of
the container/volume/network lifecycle controllers, the container config
builder, the diff predicates and the compose-stack naming logic, together
with theorems settling the specification claims about them.
-/

namespace ProviderDocker

/-! ### String helpers modelling Go's `strings` package -/

/-- Models Go `strings.HasPrefix` on character lists: `leadsWith pat s` is
true when `pat` is an initial segment of `s`. -/
def leadsWith : List Char → List Char → Bool
  | [], _ => true
  | _ :: _, [] => false
  | p :: ps, c :: cs => p == c && leadsWith ps cs

/-- Models Go `strings.Contains` on character lists: true when `pat` occurs
as a contiguous substring of `s`. -/
def hasSubL (pat : List Char) : List Char → Bool
  | [] => pat.isEmpty
  | c :: cs => leadsWith pat (c :: cs) || hasSubL pat cs

/-- Go `strings.Contains(s, pat)`. -/
def strContains (s pat : String) : Bool :=
  hasSubL pat.data s.data

/-- Go `strings.HasSuffix(s, suf)`. -/
def strEndsWith (s suf : String) : Bool :=
  leadsWith suf.data.reverse s.data.reverse

/-- Drops the last `n` characters of a string; used to model Go
`strings.TrimSuffix` after the corresponding `HasSuffix` check succeeded. -/
def strDropRightN (s : String) (n : Nat) : String :=
  ⟨s.data.take (s.data.length - n)⟩

/-- ASCII lower-casing; Go `strings.ToLower` restricted to the ASCII
messages this code classifies (defined on the character list so that it
evaluates by kernel reduction). -/
def goToLower (s : String) : String :=
  ⟨s.data.map Char.toLower⟩

/-- Specification-level substring predicate: `pat` occurs inside `s`. -/
def IsSubstrOf (pat s : List Char) : Prop :=
  ∃ l r, s = l ++ pat ++ r

theorem leadsWith_iff (p s : List Char) :
    leadsWith p s = true ↔ ∃ r, s = p ++ r := by
  induction p generalizing s with
  | nil => simp [leadsWith]
  | cons a ps ih =>
    cases s with
    | nil => simp [leadsWith]
    | cons c cs =>
      simp only [leadsWith, Bool.and_eq_true, beq_iff_eq, ih, List.cons_append,
        List.cons.injEq]
      constructor
      · rintro ⟨rfl, r, rfl⟩; exact ⟨r, rfl, rfl⟩
      · rintro ⟨r, rfl, rfl⟩; exact ⟨rfl, r, rfl⟩

theorem hasSubL_iff (pat s : List Char) :
    hasSubL pat s = true ↔ IsSubstrOf pat s := by
  induction s with
  | nil =>
    simp only [hasSubL, List.isEmpty_iff, IsSubstrOf]
    constructor
    · rintro rfl; exact ⟨[], [], rfl⟩
    · rintro ⟨l, r, h⟩
      rcases List.append_eq_nil.mp (List.append_eq_nil.mp h.symm).1 with ⟨_, h2⟩
      exact h2
  | cons c cs ih =>
    simp only [hasSubL, Bool.or_eq_true, leadsWith_iff, ih, IsSubstrOf]
    constructor
    · rintro (⟨r, hr⟩ | ⟨l, r, hr⟩)
      · exact ⟨[], r, by simpa using hr⟩
      · exact ⟨c :: l, r, by simp [hr]⟩
    · rintro ⟨l, r, hr⟩
      cases l with
      | nil => exact Or.inl ⟨r, by simpa using hr⟩
      | cons x xs =>
        right
        refine ⟨xs, r, ?_⟩
        have h2 : c :: cs = x :: (xs ++ pat ++ r) := by simpa using hr
        exact (List.cons.injEq .. ▸ h2).2

theorem strContains_iff (s pat : String) :
    strContains s pat = true ↔ IsSubstrOf pat.data s.data :=
  hasSubL_iff pat.data s.data

/-! ### Modelling Go's `strconv.ParseInt(s, 10, 64)` and byte-size parsing -/

/-- Numeric value of a decimal digit character. -/
def digVal (c : Char) : Nat := c.toNat - 48

/-- Kind of a Go `strconv` parse error: ErrSyntax or ErrRange. -/
inductive NumErr
  | badDigits
  | outOfRange
deriving DecidableEq

/-- Go `math.MaxUint64`, the `maxVal` of `ParseUint(s, 10, 64)`. -/
def uint64Max : Nat := 18446744073709551615

/-- The `cutoff` of Go `ParseUint(s, 10, 64)`: `maxVal/10 + 1`. -/
def uint64Cutoff10 : Nat := 1844674407370955162

/-- Digit loop of Go `strconv.ParseUint(s, 10, 64)`: a non-digit is a syntax
error with value 0; overflow (detected before the multiply via `cutoff`, or
after the add) is a range error with the clamped value `maxVal`; Go returns
the value TOGETHER with the error, so a pair is returned here too. -/
def goParseUint64 : List Char → Nat → Nat × Option NumErr
  | [], n => (n, none)
  | c :: cs, n =>
    if c.isDigit then
      if n ≥ uint64Cutoff10 then (uint64Max, some NumErr.outOfRange)
      else if n * 10 + digVal c > uint64Max then (uint64Max, some NumErr.outOfRange)
      else goParseUint64 cs (n * 10 + digVal c)
    else (0, some NumErr.badDigits)

/-- Leading-sign split of `ParseInt`. -/
def signSplit (cs : List Char) : Bool × List Char :=
  match cs with
  | '-' :: rest => (true, rest)
  | '+' :: rest => (false, rest)
  | cs => (false, cs)

/-- Range-check tail of `ParseInt` after the unsigned parse: a syntax error
passes through with value 0; a magnitude at or beyond the signed cutoff is
clamped to the corresponding bound with a range error; otherwise the signed
value is returned with whatever error the unsigned parse reported. -/
def goParseInt64Core (neg : Bool) (u : Nat × Option NumErr) : Int × Option NumErr :=
  if u.2 = some NumErr.badDigits then (0, some NumErr.badDigits)
  else if !neg && decide (u.1 ≥ 2 ^ 63) then (2 ^ 63 - 1, some NumErr.outOfRange)
  else if neg && decide (u.1 > 2 ^ 63) then (-(2 ^ 63 : Int), some NumErr.outOfRange)
  else (if neg then -(u.1 : Int) else (u.1 : Int), u.2)

/-- Go `strconv.ParseInt(s, 10, 64)` with the value returned alongside the
error, as in Go: optional sign; a syntax error yields 0; a value outside the
signed 64-bit range yields the clamped bound together with a range error. -/
def goParseInt64Pair (s : String) : Int × Option NumErr :=
  goParseInt64Core (signSplit s.data).1
    (if (signSplit s.data).2.isEmpty then (0, some NumErr.badDigits)
     else goParseUint64 (signSplit s.data).2 0)

/-- Error-erased view of `ParseInt`: just the successfully parsed value, for
statements about which strings parse (Go callers that check `err != nil`). -/
def goParseInt64 (s : String) : Option Int :=
  match goParseInt64Pair s with
  | (_, some _) => none
  | (v, none) => some v

/-- Two's-complement wrap-around of an integer to the signed 64-bit range,
matching Go's defined overflow behaviour for `int64` multiplication. -/
def int64Wrap (x : Int) : Int :=
  let m := x % (2 ^ 64 : Int)
  if m < 2 ^ 63 then m else m - 2 ^ 64

/-- Models `parseByteSize` from the container controller, value and error
together as in Go: the Mi/Gi branches return `0` alongside a parse error and
otherwise the wrapped `int64` product; the bare branch passes the `ParseInt`
pair through unchanged — including the clamped value accompanying a range
error. -/
def parseByteSizePair (sizeStr : String) : Int × Option NumErr :=
  if strEndsWith sizeStr "Mi" then
    match (goParseInt64Pair (strDropRightN sizeStr 2)).2 with
    | some e => (0, some e)
    | none => (int64Wrap ((goParseInt64Pair (strDropRightN sizeStr 2)).1 * 1024 * 1024), none)
  else if strEndsWith sizeStr "Gi" then
    match (goParseInt64Pair (strDropRightN sizeStr 2)).2 with
    | some e => (0, some e)
    | none =>
      (int64Wrap ((goParseInt64Pair (strDropRightN sizeStr 2)).1 * 1024 * 1024 * 1024), none)
  else
    goParseInt64Pair sizeStr

/-- Error-erased view of `parseByteSize`: the parsed byte count when no
error is reported, for statements about which size strings parse. -/
def parseByteSize (sizeStr : String) : Option Int :=
  match parseByteSizePair sizeStr with
  | (_, some _) => none
  | (v, none) => some v

/-! ### Association-list maps modelling Go `map[string]string` and friends -/

/-- Lookup in an association list, modelling Go map indexing that reports
presence (`v, ok := m[k]`). -/
def lookupMap {α : Type} : List (String × α) → String → Option α
  | [], _ => none
  | kv :: rest, k => if kv.1 == k then some kv.2 else lookupMap rest k

/-- Insert-or-overwrite, modelling Go map assignment `m[k] = v`. -/
def mapSet {α : Type} (m : List (String × α)) (k : String) (v : α) : List (String × α) :=
  if (lookupMap m k).isSome then
    m.map fun kv => if kv.1 == k then (k, v) else kv
  else
    m ++ [(k, v)]

/-- Insert into a set of strings, modelling Go `map[T]struct{}` insertion. -/
def setInsert (l : List String) (x : String) : List String :=
  if x ∈ l then l else l ++ [x]

/-! ### Data model of the container API types (apis/container/v1alpha1) -/

/-- Key selector shared by `SecretKeySelector` and `ConfigMapKeySelector`;
only the `Optional` flag is ever read by the code under proof. -/
structure KeySelector where
  name : String
  key : String
  optional : Option Bool

/-- EnvVarSource: reference to a ConfigMap or Secret key. -/
structure EnvVarSource where
  secretKeyRef : Option KeySelector
  configMapKeyRef : Option KeySelector

/-- EnvVar: an environment variable with a literal value or a reference. -/
structure EnvVar where
  name : String
  value : Option String
  valueFrom : Option EnvVarSource

/-- PortSpec: a port to expose from the container. -/
structure PortSpec where
  containerPort : Int
  hostPort : Option Int
  hostIP : Option String
  protocol : Option String

/-- HostPathVolumeSource. -/
structure HostPathVolumeSource where
  path : String

/-- EmptyDirVolumeSource. -/
structure EmptyDirVolumeSource where
  sizeLimit : Option String

/-- VolumeVolumeSource: a named Docker volume. -/
structure VolumeVolumeSource where
  volumeName : String

/-- BindVolumeSource: a bind mount with optional propagation. -/
structure BindVolumeSource where
  sourcePath : String
  propagation : Option String

/-- VolumeSource: exactly the fields inspected by the volume builder. The
Secret and ConfigMap sources carry data the builder never reads, so only
their presence is modelled. -/
structure VolumeSource where
  hostPath : Option HostPathVolumeSource
  emptyDir : Option EmptyDirVolumeSource
  secretPresent : Bool
  configMapPresent : Bool
  volume : Option VolumeVolumeSource
  bind : Option BindVolumeSource

/-- VolumeMount. -/
structure VolumeMount where
  name : String
  mountPath : String
  readOnly : Option Bool
  volumeSource : VolumeSource

/-- NetworkAttachment. -/
structure NetworkAttachment where
  name : String
  ipAddress : Option String
  ipv6Address : Option String
  aliases : List String
  links : List String

/-- Capabilities to add and drop. -/
structure Capabilities where
  add : List String
  drop : List String

/-- SELinuxOptions (fields User/Role/Type/Level). -/
structure SELinuxOptionsM where
  user : Option String
  role : Option String
  typeLabel : Option String
  level : Option String

/-- Seccomp or AppArmor profile reference (fields Type/LocalhostProfile). -/
structure ProfileRef where
  profileType : String
  localhostProfile : Option String

/-- SecurityContext. -/
structure SecurityContext where
  runAsUser : Option Int
  runAsGroup : Option Int
  runAsNonRoot : Option Bool
  readOnlyRootFilesystem : Option Bool
  allowPrivilegeEscalation : Option Bool
  capabilities : Option Capabilities
  seLinuxOptions : Option SELinuxOptionsM
  seccompProfile : Option ProfileRef
  appArmorProfile : Option ProfileRef

/-- HealthCheck. The interval/timeout/start-period durations are modelled in
nanoseconds: the Go code stringifies each `metav1.Duration` and reparses it
with `time.ParseDuration`, an identity round-trip. -/
structure HealthCheck where
  test : List String
  interval : Option Int
  timeout : Option Int
  startPeriod : Option Int
  retries : Option Int

/-- ContainerParameters: the fields of the spec consumed by the config
builder, the diff predicate and the lifecycle controller. -/
structure ContainerParameters where
  image : String
  name : Option String
  command : List String
  args : List String
  environment : List EnvVar
  ports : List PortSpec
  volumes : List VolumeMount
  networkMode : Option String
  networks : List NetworkAttachment
  restartPolicy : Option String
  maximumRetryCount : Option Int
  workingDir : Option String
  user : Option String
  hostname : Option String
  labels : List (String × String)
  securityContext : Option SecurityContext
  healthCheck : Option HealthCheck
  privileged : Option Bool
  startOnCreate : Option Bool

/-! ### Data model of the Docker engine request types -/

/-- Docker RestartPolicy. -/
structure RestartPolicyGo where
  name : String
  maximumRetryCount : Int
deriving DecidableEq

/-- Docker PortBinding. -/
structure PortBinding where
  hostIP : String
  hostPort : String
deriving DecidableEq

/-- Docker HealthConfig (durations in nanoseconds). -/
structure HealthConfig where
  test : List String
  interval : Int
  timeout : Int
  startPeriod : Int
  retries : Int
deriving DecidableEq

/-- Docker container.Config. -/
structure Config where
  image : String
  cmd : List String
  env : List String
  labels : List (String × String)
  workingDir : String
  user : String
  hostname : String
  exposedPorts : List String
  healthcheck : Option HealthConfig
deriving DecidableEq

/-- Docker mount type. -/
inductive MountType
  | volumeTy
  | bindTy
  | tmpfsTy
deriving DecidableEq

/-- Docker mount.Mount entry: `bindPropagation` is `some` exactly when the
Go code allocates `BindOptions`, `tmpfsSizeBytes` is `some` exactly when it
allocates `TmpfsOptions`. -/
structure MountEntry where
  mountType : MountType
  source : String
  target : String
  readOnly : Bool
  bindPropagation : Option String
  tmpfsSizeBytes : Option Int
deriving DecidableEq

/-- Docker container.HostConfig. -/
structure HostConfig where
  portBindings : List (String × List PortBinding)
  restartPolicy : RestartPolicyGo
  networkMode : String
  binds : List String
  mounts : List MountEntry
  readonlyRootfs : Bool
  privileged : Bool
  capAdd : List String
  capDrop : List String
  securityOpt : List String
deriving DecidableEq

/-- Docker network.EndpointIPAMConfig. -/
structure EndpointIPAM where
  ipv4Address : String
  ipv6Address : String
deriving DecidableEq

/-- Docker network.EndpointSettings. -/
structure EndpointSettings where
  ipamConfig : Option EndpointIPAM
  aliases : List String
  links : List String
deriving DecidableEq

/-- Docker network.NetworkingConfig: map from network name to endpoint. -/
abbrev NetworkingConfig : Type := List (String × EndpointSettings)

/-! ### Not-found error classification -/

/-- `isNotFound` from the container controller: lower-case the error message
and look for the substrings it special-cases. A `nil` error never reaches
this model because errors are represented by their message. -/
def isNotFound (msg : String) : Bool :=
  strContains (goToLower msg) "not found" ||
    strContains (goToLower msg) "no such container"

/-- `isNotFoundError` shared by the volume and network controllers. -/
def isNotFoundError (msg : String) : Bool :=
  strContains (goToLower msg) "not found" || strContains (goToLower msg) "no such" ||
    strContains (goToLower msg) "404"

/-! ### Config builder (defaultContainerConfigBuilder) -/

/-- `resolveEnvVarValue`: the ConfigMap/Secret paths are placeholders that
always fail with a fixed message. -/
def resolveEnvVarValue (vf : EnvVarSource) : Except String String :=
  if vf.configMapKeyRef.isSome then
    .error "ConfigMap valueFrom not yet implemented - requires Kubernetes client integration"
  else if vf.secretKeyRef.isSome then
    .error "Secret valueFrom not yet implemented - requires Kubernetes client integration"
  else
    .error "unknown valueFrom source"

/-- `isEnvVarOptional`: first a present ConfigMap ref with a set flag, then a
present Secret ref with a set flag, otherwise false. -/
def isEnvVarOptional (vf : EnvVarSource) : Bool :=
  match vf.configMapKeyRef with
  | some r =>
    match r.optional with
    | some b => b
    | none =>
      match vf.secretKeyRef with
      | some s => s.optional.getD false
      | none => false
  | none =>
    match vf.secretKeyRef with
    | some s => s.optional.getD false
    | none => false

/-- `buildEnvironmentConfiguration`: literal values become `name=value`
entries; reference values are resolved (always failing in this version) and
skipped only when optional and the failure classifies as not-found; an entry
with neither is a build error. -/
def buildEnvironmentConfiguration : List EnvVar → Except String (List String)
  | [] => .ok []
  | e :: rest =>
    match e.value with
    | some v => do
      let tail ← buildEnvironmentConfiguration rest
      .ok ((e.name ++ "=" ++ v) :: tail)
    | none =>
      match e.valueFrom with
      | some vf =>
        match resolveEnvVarValue vf with
        | .ok v => do
          let tail ← buildEnvironmentConfiguration rest
          .ok ((e.name ++ "=" ++ v) :: tail)
        | .error err =>
          if isEnvVarOptional vf && isNotFound err then
            buildEnvironmentConfiguration rest
          else
            .error ("cannot resolve value for environment variable " ++ e.name ++ ": " ++ err)
      | none =>
        .error ("environment variable " ++ e.name ++ " has no value or valueFrom specified")

/-- `buildPortConfiguration`: exposed-port set keyed by
`<containerPort>/<protocol>` (protocol lower-cased, default tcp) and a
host-binding map only for ports carrying a host port. -/
def buildPortConfiguration (ports : List PortSpec) :
    List String × List (String × List PortBinding) :=
  ports.foldl
    (fun acc portSpec =>
      let protocol := match portSpec.protocol with
        | some p => goToLower p
        | none => "tcp"
      let dockerPort := toString portSpec.containerPort ++ "/" ++ protocol
      let exposed := setInsert acc.1 dockerPort
      match portSpec.hostPort with
      | some hp =>
        let binding : PortBinding := { hostIP := portSpec.hostIP.getD "", hostPort := toString hp }
        (exposed, mapSet acc.2 dockerPort [binding])
      | none => (exposed, acc.2))
    ([], [])

/-- Propagation modes recognised by the bind-mount case; any other string
leaves `BindOptions` unallocated. -/
def bindPropagationOf (p : String) : Option String :=
  match p with
  | "private" => some "private"
  | "rprivate" => some "rprivate"
  | "shared" => some "shared"
  | "rshared" => some "rshared"
  | "slave" => some "slave"
  | "rslave" => some "rslave"
  | _ => none

/-- Result of translating one volume mount: a legacy bind string, a typed
mount entry, or a skip (secret/config-map sources). -/
inductive VolEntry
  | bindStr (s : String)
  | mnt (m : MountEntry)
  | skip

/-- One arm of the `switch` in `buildVolumeConfiguration`, in source order:
host path, named volume, bind, empty dir, secret/config-map, default
error. The empty-dir size parse error is discarded (`_`), and the value
`parseByteSize` returned alongside it is kept as the tmpfs size — 0 from the
Mi/Gi branches and for syntax errors, the clamped `int64` bound for bare
out-of-range numerals. -/
def convertVolumeMount (v : VolumeMount) : Except String VolEntry :=
  let ro := v.readOnly.getD false
  match v.volumeSource.hostPath with
  | some hp =>
    .ok (.bindStr (hp.path ++ ":" ++ v.mountPath ++ (if ro then ":ro" else "")))
  | none =>
    match v.volumeSource.volume with
    | some vol =>
      .ok (.mnt { mountType := .volumeTy, source := vol.volumeName, target := v.mountPath,
                  readOnly := ro, bindPropagation := none, tmpfsSizeBytes := none })
    | none =>
      match v.volumeSource.bind with
      | some b =>
        .ok (.mnt { mountType := .bindTy, source := b.sourcePath, target := v.mountPath,
                    readOnly := ro,
                    bindPropagation := match b.propagation with
                      | some p => bindPropagationOf p
                      | none => none,
                    tmpfsSizeBytes := none })
      | none =>
        match v.volumeSource.emptyDir with
        | some ed =>
          .ok (.mnt { mountType := .tmpfsTy, source := "", target := v.mountPath,
                      readOnly := ro, bindPropagation := none,
                      tmpfsSizeBytes := match ed.sizeLimit with
                        | some sz => some (parseByteSizePair sz).1
                        | none => none })
        | none =>
          if v.volumeSource.secretPresent || v.volumeSource.configMapPresent then
            .ok .skip
          else
            .error ("unsupported volume source type for volume " ++ v.name)

/-- `buildVolumeConfiguration`: fold the per-mount translation, appending
bind strings and mount entries in input order; the first error aborts. -/
def buildVolumeConfiguration : List VolumeMount → Except String (List String × List MountEntry)
  | [] => .ok ([], [])
  | v :: rest => do
    let e ← convertVolumeMount v
    let rec_ ← buildVolumeConfiguration rest
    match e with
    | .bindStr s => .ok (s :: rec_.1, rec_.2)
    | .mnt m => .ok (rec_.1, m :: rec_.2)
    | .skip => .ok rec_

/-- `buildNetworkConfiguration`: nil for zero attachments, otherwise one
endpoint per attachment keyed by network name. -/
def buildNetworkConfiguration (networks : List NetworkAttachment) : Option NetworkingConfig :=
  if networks.isEmpty then none
  else some (networks.foldl
    (fun acc networkSpec =>
      let ipam0 : Option EndpointIPAM := match networkSpec.ipAddress with
        | some ip => some { ipv4Address := ip, ipv6Address := "" }
        | none => none
      let ipam : Option EndpointIPAM := match networkSpec.ipv6Address with
        | some ip6 =>
          match ipam0 with
          | some cfg => some { cfg with ipv6Address := ip6 }
          | none => some { ipv4Address := "", ipv6Address := ip6 }
        | none => ipam0
      let endpointSettings : EndpointSettings :=
        { ipamConfig := ipam,
          aliases := if networkSpec.aliases.isEmpty then [] else networkSpec.aliases,
          links := if networkSpec.links.isEmpty then [] else networkSpec.links }
      mapSet acc networkSpec.name endpointSettings)
    [])

/-- SELinux option serialization: `label:` followed by the present fields in
user/role/type/level order, comma separated. -/
def selinuxOptStrings (o? : Option SELinuxOptionsM) : List String :=
  match o? with
  | none => []
  | some o =>
    let parts :=
      (match o.user with | some u => ["user:" ++ u] | none => []) ++
      (match o.role with | some r => ["role:" ++ r] | none => []) ++
      (match o.typeLabel with | some t => ["type:" ++ t] | none => []) ++
      (match o.level with | some l => ["level:" ++ l] | none => [])
    if parts.isEmpty then [] else ["label:" ++ String.intercalate "," parts]

/-- Seccomp profile option strings. -/
def seccompOptStrings (pr? : Option ProfileRef) : List String :=
  match pr? with
  | none => []
  | some pr =>
    match pr.profileType with
    | "RuntimeDefault" => ["seccomp:runtime/default"]
    | "Unconfined" => ["seccomp:unconfined"]
    | "Localhost" =>
      match pr.localhostProfile with
      | some p => ["seccomp:" ++ p]
      | none => []
    | _ => []

/-- AppArmor profile option strings. -/
def appArmorOptStrings (pr? : Option ProfileRef) : List String :=
  match pr? with
  | none => []
  | some pr =>
    match pr.profileType with
    | "RuntimeDefault" => ["apparmor:docker-default"]
    | "Unconfined" => ["apparmor:unconfined"]
    | "Localhost" =>
      match pr.localhostProfile with
      | some p => ["apparmor:" ++ p]
      | none => []
    | _ => []

/-- `buildSecurityConfiguration`: updates user, read-only root, privileged
mode, capabilities and security options on the request pair. -/
def buildSecurityConfiguration (sc? : Option SecurityContext)
    (config : Config) (hostConfig : HostConfig) : Config × HostConfig :=
  match sc? with
  | none => (config, hostConfig)
  | some sc =>
    let config := match sc.runAsUser with
      | some u => { config with user := toString u }
      | none => config
    let config := match sc.runAsGroup with
      | some g =>
        if config.user ≠ "" then { config with user := config.user ++ ":" ++ toString g }
        else { config with user := ":" ++ toString g }
      | none => config
    let hostConfig :=
      if sc.readOnlyRootFilesystem.getD false then { hostConfig with readonlyRootfs := true }
      else hostConfig
    let hostConfig := match sc.allowPrivilegeEscalation with
      | some b => if b then hostConfig else { hostConfig with privileged := false }
      | none => hostConfig
    let hostConfig := match sc.capabilities with
      | none => hostConfig
      | some caps =>
        let hc1 := if caps.add.isEmpty then hostConfig else { hostConfig with capAdd := caps.add }
        if caps.drop.isEmpty then hc1 else { hc1 with capDrop := caps.drop }
    let secOpts := selinuxOptStrings sc.seLinuxOptions ++
      seccompOptStrings sc.seccompProfile ++ appArmorOptStrings sc.appArmorProfile
    let hostConfig :=
      if secOpts.isEmpty then hostConfig else { hostConfig with securityOpt := secOpts }
    (config, hostConfig)

/-- `buildHealthCheckConfiguration`: absence leaves the field unset; an empty
test command is a build error; durations default to 0 when unset. -/
def buildHealthCheckConfiguration (hc? : Option HealthCheck) (config : Config) :
    Except String Config :=
  match hc? with
  | none => .ok config
  | some hc =>
    if hc.test.isEmpty then .error "health check test command is required"
    else
      let h : HealthConfig :=
        { test := hc.test, interval := hc.interval.getD 0, timeout := hc.timeout.getD 0,
          startPeriod := hc.startPeriod.getD 0, retries := hc.retries.getD 0 }
      .ok { config with healthcheck := some h }

/-- `BuildContainerConfig`: the full creation-request builder, with the
fallible steps sequenced in source order (environment, ports, volumes,
networks, security, health check). -/
def BuildContainerConfig (p : ContainerParameters) :
    Except String (Config × HostConfig × Option NetworkingConfig) := do
  let cmd0 : List String := if p.command.isEmpty then [] else p.command
  let cmd : List String :=
    if p.args.isEmpty then cmd0
    else if cmd0.isEmpty then p.args else cmd0 ++ p.args
  let env ← (if p.environment.isEmpty then (pure [] : Except String (List String))
    else Except.mapError (fun e => "cannot build environment configuration: " ++ e)
      (buildEnvironmentConfiguration p.environment))
  let labels := if p.labels.isEmpty then [] else p.labels
  let pc := buildPortConfiguration p.ports
  let vols ← (Except.mapError (fun e => "cannot build volume configuration: " ++ e)
    (buildVolumeConfiguration p.volumes))
  let networkingConfig := buildNetworkConfiguration p.networks
  let config : Config :=
    { image := p.image, cmd := cmd, env := env, labels := labels,
      workingDir := p.workingDir.getD "", user := p.user.getD "",
      hostname := p.hostname.getD "", exposedPorts := pc.1, healthcheck := none }
  let hostConfig : HostConfig :=
    { portBindings := pc.2,
      restartPolicy := match p.restartPolicy with
        | none => { name := "", maximumRetryCount := 0 }
        | some rp => { name := rp, maximumRetryCount := p.maximumRetryCount.getD 0 },
      networkMode := p.networkMode.getD "", binds := vols.1, mounts := vols.2,
      readonlyRootfs := false, privileged := false, capAdd := [], capDrop := [],
      securityOpt := [] }
  let cfgs := buildSecurityConfiguration p.securityContext config hostConfig
  let config2 ← Except.mapError (fun e => "cannot build health check configuration: " ++ e)
    (buildHealthCheckConfiguration p.healthCheck cfgs.1)
  pure (config2, cfgs.2, networkingConfig)

/-! ### Diff engine for containers -/

/-- Splits a character list at the first `=`, modelling
`strings.SplitN(s, "=", 2)`: the second component is `none` when no `=`
occurs (the one-part case). -/
def splitOnEq : List Char → List Char × Option (List Char)
  | [] => ([], none)
  | c :: cs =>
    if c = '=' then ([], some cs)
    else
      let r := splitOnEq cs
      (c :: r.1, r.2)

/-- Builds the actual-environment map of `isEnvironmentUpToDate`: entries
with an `=` map name to the remainder, entries without map to the empty
string, later duplicates overwriting earlier ones. -/
def buildEnvMap (actual : List String) : List (String × String) :=
  actual.foldl
    (fun m s =>
      let sp := splitOnEq s.data
      match sp.2 with
      | some rest => mapSet m ⟨sp.1⟩ ⟨rest⟩
      | none => mapSet m ⟨sp.1⟩ "")
    []

/-- `isEnvironmentUpToDate`: every declared literal entry must appear in the
observed map with an identical value; entries whose value is unset (whether
they carry a `valueFrom` reference or nothing) are skipped. -/
def isEnvironmentUpToDate (expected : List EnvVar) (actual : List String) : Bool :=
  let actualEnvMap := buildEnvMap actual
  expected.all fun envVar =>
    match envVar.value with
    | some expectedValue =>
      match lookupMap actualEnvMap envVar.name with
      | some actualValue => actualValue == expectedValue
      | none => false
    | none => true

/-- `isLabelsUpToDate`: every expected label must appear in the observed
labels with an identical value (the observed map may be a superset). -/
def isLabelsUpToDate (expected actual : List (String × String)) : Bool :=
  expected.all fun kv =>
    match lookupMap actual kv.1 with
    | some actualValue => actualValue == kv.2
    | none => false

/-- Observed HostConfig fields read by the diff predicate. -/
structure HostConfigObs where
  restartPolicy : RestartPolicyGo
  privileged : Bool
deriving DecidableEq

/-- Observed container state fields; `healthStatus` is `some` exactly when
the engine reports a health object. -/
structure StateObs where
  status : String
  running : Bool
  healthStatus : Option String
deriving DecidableEq

/-- Observed container (container.InspectResponse), restricted to the fields
the modelled code reads; `hostConfig` and `state` are nilable pointers. -/
structure InspectResponse where
  id : String
  name : String
  configImage : String
  configEnv : List String
  configLabels : List (String × String)
  hostConfig : Option HostConfigObs
  state : Option StateObs
  ports : List (String × List PortBinding)
deriving DecidableEq

/-- Restart-policy leg of `isUpToDate`: checked only when declared; a nil
observed HostConfig fails it; the retry count is compared only for the
on-failure policy with a declared count. -/
def restartPolicyOk (p : ContainerParameters) (info : InspectResponse) : Bool :=
  match p.restartPolicy with
  | none => true
  | some expectedPolicy =>
    match info.hostConfig with
    | none => false
    | some hc =>
      if hc.restartPolicy.name != expectedPolicy then false
      else if expectedPolicy == "on-failure" then
        match p.maximumRetryCount with
        | some m => hc.restartPolicy.maximumRetryCount == m
        | none => true
      else true

/-- Privileged leg of `isUpToDate`. -/
def privilegedOk (p : ContainerParameters) (info : InspectResponse) : Bool :=
  match p.privileged with
  | none => true
  | some b =>
    match info.hostConfig with
    | none => false
    | some hc => hc.privileged == b

/-- Health leg of `isUpToDate`: only an observed "unhealthy" status fails. -/
def healthOk (info : InspectResponse) : Bool :=
  match info.state with
  | none => true
  | some st =>
    match st.healthStatus with
    | none => true
    | some h => h != "unhealthy"

/-- `isUpToDate` for containers: image, restart policy, environment, labels,
privileged flag and health, in source order; running state and ports are
not consulted. -/
def isUpToDate (p : ContainerParameters) (info : InspectResponse) : Bool :=
  info.configImage == p.image &&
  restartPolicyOk p info &&
  isEnvironmentUpToDate p.environment info.configEnv &&
  isLabelsUpToDate p.labels info.configLabels &&
  privilegedOk p info &&
  healthOk info

/-! ### Container lifecycle controller -/

/-- Annotation key carrying the external-identity marker. -/
def extNameKey : String := "crossplane.io/external-name"

/-- The declarative container record: its annotations map and spec. -/
structure ContainerRecord where
  annotations : List (String × String)
  params : ContainerParameters

/-- One reconcile invocation's engine behaviour: result of the (at most one)
call of each kind the lifecycle methods can issue. -/
structure ContainerEngine where
  inspectResult : Except String InspectResponse
  createResult : Except String String
  startResult : Option String
  stopResult : Option String
  removeResult : Option String

/-- Engine calls issued by Delete, recorded for the call-trace statements. -/
inductive EngineCall
  | stop (id : String) (timeoutSeconds : Int)
  | remove (id : String) (force : Bool)
deriving DecidableEq

/-- Result of Observe. -/
structure ObserveResult where
  resourceExists : Bool
  resourceUpToDate : Bool
deriving DecidableEq

/-- `external.Observe` for containers: no marker means "does not exist"; a
not-found inspect error means "does not exist"; any other inspect error is a
failure; otherwise the diff verdict is attached. -/
def containerObserve (cr : ContainerRecord) (eng : ContainerEngine) :
    Except String ObserveResult :=
  let containerID := (lookupMap cr.annotations extNameKey).getD ""
  if containerID == "" then .ok { resourceExists := false, resourceUpToDate := false }
  else
    match eng.inspectResult with
    | .error e =>
      if isNotFound e then .ok { resourceExists := false, resourceUpToDate := false }
      else .error ("cannot inspect container: " ++ e)
    | .ok info =>
      .ok { resourceExists := true, resourceUpToDate := isUpToDate cr.params info }

/-- Sets one annotation on the record (Go allocates the map if nil and
assigns). -/
def setAnnotation (cr : ContainerRecord) (k v : String) : ContainerRecord :=
  { cr with annotations := mapSet cr.annotations k v }

/-- `external.Create` for containers: build the request, create, start when
the start-on-create flag is true or unset, and only then store the returned
ID under the external-name annotation. The pair carries the error (if any)
and the record as left behind by the call. -/
def containerCreate (cr : ContainerRecord) (eng : ContainerEngine) :
    Option String × ContainerRecord :=
  match BuildContainerConfig cr.params with
  | .error e => (some ("cannot build container configuration: " ++ e), cr)
  | .ok _ =>
    match eng.createResult with
    | .error e => (some ("cannot create container: " ++ e), cr)
    | .ok responseID =>
      if cr.params.startOnCreate.getD true then
        match eng.startResult with
        | some e => (some ("cannot start container: " ++ e), cr)
        | none => (none, setAnnotation cr extNameKey responseID)
      else (none, setAnnotation cr extNameKey responseID)

/-- Removal phase of container Delete (the stop call has already been
issued): a not-found removal error is success. -/
def containerDeleteRemove (containerID : String) (eng : ContainerEngine) :
    Option String × List EngineCall :=
  let calls : List EngineCall := [.stop containerID 10, .remove containerID true]
  match eng.removeResult with
  | some e =>
    if !isNotFound e then (some ("cannot delete container: " ++ e), calls)
    else (none, calls)
  | none => (none, calls)

/-- `external.Delete` for containers: trivial success with no engine calls
when no marker is stored; otherwise a graceful stop with a 10-second bound
(not-found tolerated) followed by forced removal (not-found tolerated). -/
def containerDelete (cr : ContainerRecord) (eng : ContainerEngine) :
    Option String × List EngineCall :=
  let containerID := (lookupMap cr.annotations extNameKey).getD ""
  if containerID == "" then (none, [])
  else
    match eng.stopResult with
    | some e =>
      if !isNotFound e then (some ("cannot stop container: " ++ e), [.stop containerID 10])
      else containerDeleteRemove containerID eng
    | none => containerDeleteRemove containerID eng

/-! ### Volume and network controllers -/

/-- `getStringValue`. -/
def getStringValue (s : Option String) (defaultValue : String) : String :=
  s.getD defaultValue

/-- `getBoolValue`. -/
def getBoolValue (b : Option Bool) (defaultValue : Bool) : Bool :=
  b.getD defaultValue

/-- `mapsEqual` shared by the volume and network controllers: equal sizes,
and every key of `a` maps in `b` (under Go's zero-value indexing) to the
same value. -/
def mapsEqual (a b : List (String × String)) : Bool :=
  a.length == b.length &&
  a.all fun kv => (lookupMap b kv.1).getD "" == kv.2

/-- Desired volume spec fields read by the modelled code. -/
structure VolumeParameters where
  name : Option String
  driver : Option String
  labels : List (String × String)

/-- Observed volume fields read by the modelled code. -/
structure VolumeObs where
  name : String
  driver : String
  labels : List (String × String)

/-- `isUpToDate` for volumes: driver (default "local") then `mapsEqual` on
observed-vs-spec labels. -/
def volumeIsUpToDate (spec : VolumeParameters) (vol : VolumeObs) : Bool :=
  let expectedDriver := getStringValue spec.driver "local"
  if vol.driver != expectedDriver then false
  else mapsEqual vol.labels spec.labels

/-- Desired network spec fields read by the modelled code. -/
structure NetworkParameters where
  name : Option String
  driver : Option String
  internal : Option Bool
  attachable : Option Bool
  ingress : Option Bool
  enableIPv6 : Option Bool
  labels : List (String × String)

/-- Observed network fields read by the modelled code. -/
structure NetworkObs where
  driver : String
  internal : Bool
  attachable : Bool
  enableIPv6 : Bool
  labels : List (String × String)

/-- `isUpToDate` for networks: driver (default "bridge"), the
internal/attachable/enableIPv6 flags (default false), then `mapsEqual`. -/
def networkIsUpToDate (spec : NetworkParameters) (netInspect : NetworkObs) : Bool :=
  let expectedDriver := getStringValue spec.driver "bridge"
  if netInspect.driver != expectedDriver then false
  else if netInspect.internal != getBoolValue spec.internal false then false
  else if netInspect.attachable != getBoolValue spec.attachable false then false
  else if netInspect.enableIPv6 != getBoolValue spec.enableIPv6 false then false
  else mapsEqual netInspect.labels spec.labels

/-- Engine behaviour for volume Delete. -/
structure VolumeEngine where
  removeResult : Option String

/-- Engine calls issued by volume Delete. -/
inductive VolumeCall
  | remove (name : String) (force : Bool)
deriving DecidableEq

/-- `external.Delete` for volumes: trivial success with no engine call when
the external name is empty; otherwise forced removal with not-found
tolerated. -/
def volumeDelete (externalName : String) (eng : VolumeEngine) :
    Option String × List VolumeCall :=
  if externalName == "" then (none, [])
  else
    match eng.removeResult with
    | some e =>
      if !isNotFoundError e then
        (some ("cannot remove volume: " ++ e), [.remove externalName true])
      else (none, [.remove externalName true])
    | none => (none, [.remove externalName true])

/-! ### Compose stack naming and labels -/

/-- `getContainerName` of the compose controller. -/
def getContainerName (projectName serviceName : String) : String :=
  projectName ++ "_" ++ serviceName ++ "_1"

/-- Resource name given by `convertService` to the decomposed container of a
service (`SetName(fmt.Sprintf("%s-%s", projectName, service.Name))`). -/
def convertServiceResourceName (projectName serviceName : String) : String :=
  projectName ++ "-" ++ serviceName

/-- Name given by `convertVolumes` to the volume definition of a declared
compose volume. -/
def convertVolumeDefName (projectName volumeName : String) : String :=
  projectName ++ "_" ++ volumeName

/-- Engine container name the compose controller creates and inspects for a
service: `getContainerName` applied to the project name and the decomposed
resource's `.Name` (which `convertService` set to `project-service`). -/
def engineNameForService (projectName serviceName : String) : String :=
  getContainerName projectName (convertServiceResourceName projectName serviceName)

/-- Labels attached by `convertContainerSpec`: the spec labels plus the
compose project label, plus the service label when the spec has a name. -/
def composeContainerLabels (projectName : String) (specLabels : List (String × String))
    (specName : Option String) : List (String × String) :=
  let labels0 := if specLabels.isEmpty then [] else specLabels
  let labels1 := mapSet labels0 "com.docker.compose.project" projectName
  match specName with
  | some n => mapSet labels1 "com.docker.compose.service" n
  | none => labels1

/-! ### Association-list lemmas -/

@[simp]
theorem except_isOk_ok {ε α : Type} (a : α) : (Except.ok a : Except ε α).isOk = true := rfl

@[simp]
theorem except_isOk_error {ε α : Type} (e : ε) : (Except.error e : Except ε α).isOk = false := rfl

theorem lookupMap_mem {α : Type} {m : List (String × α)} {k : String} {v : α}
    (h : lookupMap m k = some v) : (k, v) ∈ m := by
  induction m with
  | nil => simp [lookupMap] at h
  | cons a rest ih =>
    rw [lookupMap] at h
    by_cases hk : (a.1 == k) = true
    · rw [if_pos hk] at h
      rcases a with ⟨ak, av⟩
      simp only [beq_iff_eq] at hk
      simp only [Option.some.injEq] at h
      subst hk
      subst h
      exact List.mem_cons_self _ _
    · rw [if_neg hk] at h
      exact List.mem_cons_of_mem _ (ih h)

theorem lookupMap_isSome_iff {α : Type} {m : List (String × α)} {k : String} :
    (lookupMap m k).isSome = true ↔ k ∈ m.map Prod.fst := by
  induction m with
  | nil => simp [lookupMap]
  | cons a rest ih =>
    rw [lookupMap]
    by_cases hk : (a.1 == k) = true
    · simp only [beq_iff_eq] at hk
      simp [hk]
    · rw [if_neg hk]
      simp only [beq_iff_eq] at hk
      simp only [List.map_cons, List.mem_cons, ih]
      constructor
      · exact fun h => Or.inr h
      · rintro (h | h)
        · exact absurd h.symm hk
        · exact h

theorem lookupMap_of_mem_nodup {α : Type} {m : List (String × α)} {k : String} {v : α}
    (hnd : (m.map Prod.fst).Nodup) (hmem : (k, v) ∈ m) : lookupMap m k = some v := by
  induction m with
  | nil => simp at hmem
  | cons a rest ih =>
    simp only [List.map_cons, List.nodup_cons] at hnd
    rw [lookupMap]
    rcases List.mem_cons.mp hmem with h | h
    · rw [← h]
      simp
    · have hk : ¬((a.1 == k) = true) := by
        simp only [beq_iff_eq]
        intro he
        have hmem2 : k ∈ List.map Prod.fst rest := List.mem_map.mpr ⟨(k, v), h, rfl⟩
        rw [← he] at hmem2
        exact hnd.1 hmem2
      rw [if_neg hk]
      exact ih hnd.2 h

/-! ### Suffix and drop lemmas for the byte-size parser -/

theorem leadsWith_append_self (p r : List Char) : leadsWith p (p ++ r) = true :=
  (leadsWith_iff p (p ++ r)).mpr ⟨r, rfl⟩

theorem strEndsWith_append (s t : String) : strEndsWith (s ++ t) t = true := by
  have hd : (s ++ t).data = s.data ++ t.data := rfl
  rw [strEndsWith, hd, List.reverse_append]
  exact leadsWith_append_self t.data.reverse s.data.reverse

theorem strEndsWith_append_Gi_Mi (s : String) : strEndsWith (s ++ "Gi") "Mi" = false := by
  have hd : (s ++ "Gi").data = s.data ++ ['G', 'i'] := rfl
  have hm : ("Mi" : String).data = ['M', 'i'] := rfl
  rw [strEndsWith, hd, hm, List.reverse_append]
  simp [leadsWith]

theorem strDropRightN_append (s t : String) : strDropRightN (s ++ t) t.data.length = s := by
  have hd : (s ++ t).data = s.data ++ t.data := rfl
  rw [strDropRightN, hd]
  have hlen : (s.data ++ t.data).length - t.data.length = s.data.length := by
    simp
  rw [hlen, List.take_left]

theorem int64Wrap_eq_self {x : Int} (h1 : -(2 ^ 63) ≤ x) (h2 : x < 2 ^ 63) :
    int64Wrap x = x := by
  rw [int64Wrap]
  have hm : x % (2 ^ 64 : Int) = if 0 ≤ x then x else x + 2 ^ 64 := by
    split
    · exact Int.emod_eq_of_lt (by omega) (by omega)
    · omega
  simp only [hm]
  by_cases h0 : 0 ≤ x
  · rw [if_pos h0, if_pos h2]
  · rw [if_neg h0, if_neg (by omega : ¬(x + 2 ^ 64 < 2 ^ 63))]
    omega

/-! ### Lemmas relating the ParseInt pair to its error-erased view -/

theorem goParseUint64_range_val :
    ∀ (cs : List Char) (n : Nat),
      (goParseUint64 cs n).2 = some NumErr.outOfRange →
      (goParseUint64 cs n).1 = uint64Max := by
  intro cs
  induction cs with
  | nil =>
    intro n h
    simp [goParseUint64] at h
  | cons c cs ih =>
    intro n h
    rw [goParseUint64] at h ⊢
    by_cases hd : c.isDigit
    · rw [if_pos hd] at h ⊢
      by_cases hc : n ≥ uint64Cutoff10
      · rw [if_pos hc]
      · rw [if_neg hc] at h ⊢
        by_cases ho : n * 10 + digVal c > uint64Max
        · rw [if_pos ho]
        · rw [if_neg ho] at h ⊢
          exact ih _ h
    · rw [if_neg hd] at h
      simp at h

theorem goParseInt64Core_range_val (neg : Bool) (u : Nat × Option NumErr)
    (hu : u.2 = some NumErr.outOfRange → u.1 = uint64Max)
    (h : (goParseInt64Core neg u).2 = some NumErr.outOfRange) :
    (goParseInt64Core neg u).1 = 2 ^ 63 - 1 ∨ (goParseInt64Core neg u).1 = -(2 ^ 63) := by
  rw [goParseInt64Core] at h ⊢
  by_cases h1 : u.2 = some NumErr.badDigits
  · rw [if_pos h1] at h
    simp at h
  · rw [if_neg h1] at h ⊢
    by_cases h2 : (!neg && decide (u.1 ≥ 2 ^ 63)) = true
    · rw [if_pos h2]
      exact Or.inl rfl
    · rw [if_neg h2] at h ⊢
      by_cases h3 : (neg && decide (u.1 > 2 ^ 63)) = true
      · rw [if_pos h3]
        exact Or.inr rfl
      · rw [if_neg h3] at h ⊢
        have hmax : u.1 = uint64Max := hu h
        exfalso
        cases neg with
        | false =>
          apply h2
          rw [hmax]
          simp [uint64Max]
        | true =>
          apply h3
          rw [hmax]
          simp [uint64Max]

theorem goParseInt64Core_syntax_val (neg : Bool) (u : Nat × Option NumErr)
    (h : (goParseInt64Core neg u).2 = some NumErr.badDigits) :
    (goParseInt64Core neg u).1 = 0 := by
  rw [goParseInt64Core] at h ⊢
  by_cases h1 : u.2 = some NumErr.badDigits
  · rw [if_pos h1]
  · rw [if_neg h1] at h ⊢
    by_cases h2 : (!neg && decide (u.1 ≥ 2 ^ 63)) = true
    · rw [if_pos h2] at h
      simp at h
    · rw [if_neg h2] at h ⊢
      by_cases h3 : (neg && decide (u.1 > 2 ^ 63)) = true
      · rw [if_pos h3] at h
        simp at h
      · rw [if_neg h3] at h
        exact absurd h h1

theorem goParseInt64Pair_range_val (s : String)
    (h : (goParseInt64Pair s).2 = some NumErr.outOfRange) :
    (goParseInt64Pair s).1 = 2 ^ 63 - 1 ∨ (goParseInt64Pair s).1 = -(2 ^ 63) := by
  rw [goParseInt64Pair] at h ⊢
  refine goParseInt64Core_range_val _ _ ?_ h
  split
  · intro hx
    simp at hx
  · exact goParseUint64_range_val _ _

theorem goParseInt64Pair_syntax_val (s : String)
    (h : (goParseInt64Pair s).2 = some NumErr.badDigits) :
    (goParseInt64Pair s).1 = 0 := by
  rw [goParseInt64Pair] at h ⊢
  exact goParseInt64Core_syntax_val _ _ h

theorem goParseInt64_some_iff {s : String} {N : Int} :
    goParseInt64 s = some N ↔ goParseInt64Pair s = (N, none) := by
  rw [goParseInt64]
  cases h : goParseInt64Pair s with
  | mk v err =>
    cases err with
    | none => simp [Prod.ext_iff]
    | some e => simp

theorem parseByteSizePair_of_bare {s : String} (hMi : strEndsWith s "Mi" = false)
    (hGi : strEndsWith s "Gi" = false) : parseByteSizePair s = goParseInt64Pair s := by
  rw [parseByteSizePair, if_neg (by simp [hMi]), if_neg (by simp [hGi])]

theorem parseByteSizePair_Mi_ok {s : String} {N : Int}
    (h : goParseInt64Pair s = (N, none)) :
    parseByteSizePair (s ++ "Mi") = (int64Wrap (N * 1024 * 1024), none) := by
  have hMi := strEndsWith_append s "Mi"
  have hdrop : strDropRightN (s ++ "Mi") 2 = s := by
    have hd := strDropRightN_append s "Mi"
    have hl : ("Mi" : String).data.length = 2 := rfl
    rw [hl] at hd
    exact hd
  rw [parseByteSizePair, if_pos hMi, hdrop, h]

theorem parseByteSizePair_Gi_ok {s : String} {N : Int}
    (h : goParseInt64Pair s = (N, none)) :
    parseByteSizePair (s ++ "Gi") = (int64Wrap (N * 1024 * 1024 * 1024), none) := by
  have hnotMi := strEndsWith_append_Gi_Mi s
  have hGi := strEndsWith_append s "Gi"
  have hdrop : strDropRightN (s ++ "Gi") 2 = s := by
    have hd := strDropRightN_append s "Gi"
    have hl : ("Gi" : String).data.length = 2 := rfl
    rw [hl] at hd
    exact hd
  rw [parseByteSizePair, if_neg (by simp [hnotMi]), if_pos hGi, hdrop, h]

/-! ### Claim C8: the byte-size parser -/

/-- C8 counterexample: the claim promises that every integer N maps
`"<N>Mi"` to N·2^20 bytes, but for N = 2^63 the embedded 64-bit `ParseInt`
overflows and `parseByteSize` reports an error instead of 2^63·2^20. -/
theorem c8_counterexample :
    parseByteSize "9223372036854775808Mi" = none ∧
    parseByteSize "9223372036854775808Mi" ≠ some (9223372036854775808 * 1048576) := by
  have h : parseByteSize "9223372036854775808Mi" = none := by decide
  exact ⟨h, by simp [h]⟩

/-- C8 (amended): for every numeral that parses as a 64-bit integer N such
that the scaled product also fits in a signed 64-bit integer, `"<N>Mi"`
parses to N·2^20 bytes and `"<N>Gi"` to N·2^30 bytes; a bare 64-bit integer
string parses to its raw value, and a string with no recognized suffix and
no integer form is an error. -/
theorem c8_amended :
    (∀ (s : String) (N : Int), goParseInt64 s = some N →
      -(2 ^ 63) ≤ N * 1048576 → N * 1048576 < 2 ^ 63 →
      parseByteSize (s ++ "Mi") = some (N * 1048576)) ∧
    (∀ (s : String) (N : Int), goParseInt64 s = some N →
      -(2 ^ 63) ≤ N * 1073741824 → N * 1073741824 < 2 ^ 63 →
      parseByteSize (s ++ "Gi") = some (N * 1073741824)) ∧
    (∀ (s : String) (N : Int), strEndsWith s "Mi" = false → strEndsWith s "Gi" = false →
      goParseInt64 s = some N → parseByteSize s = some N) ∧
    (∀ s : String, strEndsWith s "Mi" = false → strEndsWith s "Gi" = false →
      goParseInt64 s = none → parseByteSize s = none) := by
  refine ⟨?_, ?_, ?_, ?_⟩
  · intro s N hparse h1 h2
    have hp := goParseInt64_some_iff.mp hparse
    rw [parseByteSize, parseByteSizePair_Mi_ok hp]
    have hmul : N * 1024 * 1024 = N * 1048576 := by ring
    rw [hmul, int64Wrap_eq_self h1 h2]
  · intro s N hparse h1 h2
    have hp := goParseInt64_some_iff.mp hparse
    rw [parseByteSize, parseByteSizePair_Gi_ok hp]
    have hmul : N * 1024 * 1024 * 1024 = N * 1073741824 := by ring
    rw [hmul, int64Wrap_eq_self h1 h2]
  · intro s N hMi hGi hparse
    have hp := goParseInt64_some_iff.mp hparse
    rw [parseByteSize, parseByteSizePair_of_bare hMi hGi, hp]
  · intro s hMi hGi hparse
    rw [parseByteSize, parseByteSizePair_of_bare hMi hGi]
    rw [goParseInt64] at hparse
    cases h : goParseInt64Pair s with
    | mk v err =>
      cases err with
      | none => rw [h] at hparse; simp at hparse
      | some e => rfl

/-- C8 witness: instantiates the amended theorem at the numeral 100,
recovering the tested value 100Mi = 104857600 bytes. -/
theorem c8_witness : parseByteSize ("100" ++ "Mi") = some (100 * 1048576) :=
  c8_amended.1 "100" 100 (by decide) (by decide) (by decide)

/-! ### Claim C2: malformed empty-dir size limits -/

/-- Minimal container spec used to instantiate the builder in concrete
statements. -/
def baseParams : ContainerParameters :=
  { image := "nginx:latest", name := none, command := [], args := [], environment := [],
    ports := [], volumes := [], networkMode := none, networks := [], restartPolicy := none,
    maximumRetryCount := none, workingDir := none, user := none, hostname := none,
    labels := [], securityContext := none, healthCheck := none, privileged := none,
    startOnCreate := none }

/-- Volume mount whose only source is an empty dir with the given size
limit. -/
def mkEmptyDirMount (nm mp : String) (ro : Option Bool) (sz : String) : VolumeMount :=
  { name := nm, mountPath := mp, readOnly := ro,
    volumeSource :=
      { hostPath := none, emptyDir := some ⟨some sz⟩, secretPresent := false,
        configMapPresent := false, volume := none, bind := none } }

/-- True when the volume mount has at least one of the six recognized
sources, i.e. the default arm of the `switch` is not reached. -/
def volHasSource (v : VolumeMount) : Bool :=
  v.volumeSource.hostPath.isSome || v.volumeSource.volume.isSome ||
  v.volumeSource.bind.isSome || v.volumeSource.emptyDir.isSome ||
  v.volumeSource.secretPresent || v.volumeSource.configMapPresent

theorem convertVolumeMount_isOk {v : VolumeMount} (h : volHasSource v = true) :
    (convertVolumeMount v).isOk = true := by
  rcases v with ⟨nm, mp, ro, ⟨hp, ed, sp, cp, vol, bd⟩⟩
  cases hp with
  | some x => simp [convertVolumeMount]
  | none =>
    cases vol with
    | some x => simp [convertVolumeMount]
    | none =>
      cases bd with
      | some x => simp [convertVolumeMount]
      | none =>
        cases ed with
        | some x => simp [convertVolumeMount]
        | none =>
          simp only [volHasSource, Option.isSome_none, Bool.or_eq_true,
            Bool.false_eq_true, false_or] at h
          simp [convertVolumeMount, h]

theorem buildVolumeConfiguration_isOk {vs : List VolumeMount}
    (h : ∀ v ∈ vs, volHasSource v = true) :
    (buildVolumeConfiguration vs).isOk = true := by
  induction vs with
  | nil => simp [buildVolumeConfiguration]
  | cons v rest ih =>
    have h1 := convertVolumeMount_isOk (h v (List.mem_cons_self _ _))
    have h2 := ih fun x hx => h x (List.mem_cons_of_mem _ hx)
    rw [buildVolumeConfiguration]
    cases he : convertVolumeMount v with
    | error e => rw [he] at h1; simp at h1
    | ok e =>
      cases hr : buildVolumeConfiguration rest with
      | error e2 => rw [hr] at h2; simp at h2
      | ok pr =>
        simp only [he, hr, bind, Except.bind]
        cases e <;> simp

/-- C2 counterexample: a container spec whose only volume is an empty dir
with the malformed size limit "10XY". -/
def c2BadParams : ContainerParameters :=
  { baseParams with volumes := [mkEmptyDirMount "cache" "/cache" none "10XY"] }

/-- C2 counterexample: the claim says a malformed size-limit string makes
the build fail with no request returned; instead the build succeeds and
returns a request whose tmpfs mount carries size limit 0. -/
theorem c2_counterexample :
    (BuildContainerConfig c2BadParams).isOk = true ∧
    Except.map (fun r => r.2.1.mounts) (BuildContainerConfig c2BadParams) =
      .ok [{ mountType := .tmpfsTy, source := "", target := "/cache", readOnly := false,
             bindPropagation := none, tmpfsSizeBytes := some 0 }] := by
  constructor
  · rfl
  · rfl

/-- C2 (amended): a malformed empty-dir size-limit string is not a build
error: the volume build succeeds whenever every mount has a recognized
source, and the empty-dir arm always produces a tmpfs mount whose size is
the value `parseByteSize` returned alongside any discarded error — 0 for
Mi/Gi-suffixed strings that fail to parse and for bare syntax errors, but
the clamped signed 64-bit bound (2^63−1 or −2^63) for bare numerals outside
the 64-bit range. -/
theorem c2_amended :
    (∀ vs : List VolumeMount, (∀ v ∈ vs, volHasSource v = true) →
      (buildVolumeConfiguration vs).isOk = true) ∧
    (∀ (nm mp : String) (ro : Option Bool) (sz : String),
      convertVolumeMount (mkEmptyDirMount nm mp ro sz) =
        .ok (.mnt { mountType := .tmpfsTy, source := "", target := mp,
                    readOnly := ro.getD false, bindPropagation := none,
                    tmpfsSizeBytes := some (parseByteSizePair sz).1 })) ∧
    (∀ sz : String, strEndsWith sz "Mi" = true ∨ strEndsWith sz "Gi" = true →
      parseByteSize sz = none → (parseByteSizePair sz).1 = 0) ∧
    (∀ sz : String, strEndsWith sz "Mi" = false → strEndsWith sz "Gi" = false →
      (parseByteSizePair sz).2 = some NumErr.badDigits →
      (parseByteSizePair sz).1 = 0) ∧
    (∀ sz : String, strEndsWith sz "Mi" = false → strEndsWith sz "Gi" = false →
      (parseByteSizePair sz).2 = some NumErr.outOfRange →
      ((parseByteSizePair sz).1 = 2 ^ 63 - 1 ∨ (parseByteSizePair sz).1 = -(2 ^ 63))) := by
  refine ⟨?_, ?_, ?_, ?_, ?_⟩
  · exact fun vs h => buildVolumeConfiguration_isOk h
  · intro nm mp ro sz
    simp [convertVolumeMount, mkEmptyDirMount]
  · intro sz hsuf hnone
    rcases hsuf with hMi | hGi
    · cases herr : (goParseInt64Pair (strDropRightN sz 2)).2 with
      | some e =>
        rw [parseByteSizePair, if_pos hMi, herr]
      | none =>
        exfalso
        rw [parseByteSize, parseByteSizePair, if_pos hMi, herr] at hnone
        simp at hnone
    · by_cases hMi : strEndsWith sz "Mi" = true
      · cases herr : (goParseInt64Pair (strDropRightN sz 2)).2 with
        | some e =>
          rw [parseByteSizePair, if_pos hMi, herr]
        | none =>
          exfalso
          rw [parseByteSize, parseByteSizePair, if_pos hMi, herr] at hnone
          simp at hnone
      · cases herr : (goParseInt64Pair (strDropRightN sz 2)).2 with
        | some e =>
          rw [parseByteSizePair, if_neg hMi, if_pos hGi, herr]
        | none =>
          exfalso
          rw [parseByteSize, parseByteSizePair, if_neg hMi, if_pos hGi, herr] at hnone
          simp at hnone
  · intro sz hMi hGi h
    rw [parseByteSizePair_of_bare hMi hGi] at h ⊢
    exact goParseInt64Pair_syntax_val _ h
  · intro sz hMi hGi h
    rw [parseByteSizePair_of_bare hMi hGi] at h ⊢
    exact goParseInt64Pair_range_val _ h

/-- C2 witness: the amended theorem applied at the suffix-free malformed
string "10XY" (build succeeds; size value 0 kept) and at the bare
out-of-range numeral 2^63 (build arm keeps the clamped int64 maximum
9223372036854775807 as the tmpfs size). -/
theorem c2_witness :
    (buildVolumeConfiguration [mkEmptyDirMount "cache" "/cache" none "10XY"]).isOk = true ∧
    convertVolumeMount (mkEmptyDirMount "big" "/data" none "9223372036854775808") =
      .ok (.mnt { mountType := .tmpfsTy, source := "", target := "/data",
                  readOnly := false, bindPropagation := none,
                  tmpfsSizeBytes := some (9223372036854775807 : Int) }) := by
  constructor
  · exact c2_amended.1 [mkEmptyDirMount "cache" "/cache" none "10XY"] (by decide)
  · rw [c2_amended.2.1 "big" "/data" none "9223372036854775808"]
    have hval : (parseByteSizePair "9223372036854775808").1 = 9223372036854775807 := by
      decide
    rw [hval]
    rfl

/-! ### Claim C4: restart-policy mapping in the config builder -/

theorem buildSecurityConfiguration_restartPolicy (sc? : Option SecurityContext)
    (config : Config) (hostConfig : HostConfig) :
    (buildSecurityConfiguration sc? config hostConfig).2.restartPolicy =
      hostConfig.restartPolicy := by
  cases sc? with
  | none => rfl
  | some sc =>
    dsimp only [buildSecurityConfiguration]
    repeat' split
    all_goals rfl

/-- C4 (amended): the builder always copies the declared policy name, and
copies the retry-count field whenever it is present, regardless of the
policy name (the on-failure gate exists only in the diff predicate and in
the stack controller's converter, not here). -/
theorem c4_amended (p : ContainerParameters) (r : Config × HostConfig × Option NetworkingConfig)
    (h : BuildContainerConfig p = .ok r) :
    r.2.1.restartPolicy =
      (match p.restartPolicy with
        | none => { name := "", maximumRetryCount := 0 }
        | some rp => { name := rp, maximumRetryCount := p.maximumRetryCount.getD 0 }) := by
  simp only [BuildContainerConfig, bind, Except.bind, pure, Except.pure] at h
  split at h
  · exact absurd h (by simp)
  · split at h
    · exact absurd h (by simp)
    · split at h
      · exact absurd h (by simp)
      · rw [Except.ok.injEq] at h
        rw [← h]
        simp [buildSecurityConfiguration_restartPolicy]

/-- C4 counterexample: under the policy name "always" (not the on-failure
variant) the declared retry count 5 is still copied into the creation
request, contradicting the claim that it is ignored. -/
def c4BadParams : ContainerParameters :=
  { baseParams with restartPolicy := some "always", maximumRetryCount := some 5 }

/-- C4 counterexample: the built request carries retry count 5 under policy
"always", where the claim says the field is ignored (which would leave the
zero value 0). -/
theorem c4_counterexample :
    Except.map (fun r => r.2.1.restartPolicy) (BuildContainerConfig c4BadParams) =
      .ok { name := "always", maximumRetryCount := 5 } ∧
    ({ name := "always", maximumRetryCount := 5 } : RestartPolicyGo) ≠
      { name := "always", maximumRetryCount := 0 } := by
  exact ⟨rfl, by decide⟩

/-- Concrete input for the C4 witness. -/
def c4GoodParams : ContainerParameters :=
  { baseParams with restartPolicy := some "no", maximumRetryCount := some 7 }

/-- C4 witness: the amended theorem applied at a concrete spec. -/
theorem c4_witness :
    Except.map (fun r => r.2.1.restartPolicy) (BuildContainerConfig c4GoodParams) =
      .ok { name := "no", maximumRetryCount := 7 } := by
  cases hr : BuildContainerConfig c4GoodParams with
  | error e =>
    have hok : (BuildContainerConfig c4GoodParams).isOk = true := by rfl
    rw [hr] at hok
    simp at hok
  | ok r =>
    have h := c4_amended c4GoodParams r hr
    simp only [Except.map, h]
    rfl

/-! ### Claim C1: Create with a failing start call -/

/-- C1 (amended): when the build and create calls succeed and the
start-on-create flag is true or unset, a failing start call makes Create
report a creation failure and leaves the record unchanged — the returned
engine ID is not stored as the external-identity marker; the marker is
stored only after a successful (or skipped) start. -/
theorem c1_amended (cr : ContainerRecord) (eng : ContainerEngine) (id errMsg : String)
    (hbuild : (BuildContainerConfig cr.params).isOk = true)
    (hcreate : eng.createResult = .ok id)
    (hflag : cr.params.startOnCreate.getD true = true) :
    (eng.startResult = some errMsg →
      containerCreate cr eng = (some ("cannot start container: " ++ errMsg), cr)) ∧
    (eng.startResult = none →
      containerCreate cr eng = (none, setAnnotation cr extNameKey id)) := by
  cases hb : BuildContainerConfig cr.params with
  | error e => rw [hb] at hbuild; simp at hbuild
  | ok t =>
    constructor <;> intro hstart <;>
      simp [containerCreate, hb, hcreate, hflag, hstart]

/-- Record used by the C1 concrete statements: no annotations yet. -/
def c1Record : ContainerRecord := { annotations := [], params := baseParams }

/-- Engine used by the C1 concrete statements: create succeeds with ID
"test-id", start fails. -/
def c1Engine : ContainerEngine :=
  { inspectResult := .error "unused", createResult := .ok "test-id",
    startResult := some "docker start failed", stopResult := none, removeResult := none }

/-- C1 counterexample: Create reports the start failure, but contrary to the
claim the record does not keep the returned engine ID — no external-identity
marker is stored at all. -/
theorem c1_counterexample :
    (containerCreate c1Record c1Engine).1 =
      some "cannot start container: docker start failed" ∧
    lookupMap (containerCreate c1Record c1Engine).2.annotations extNameKey = none :=
  ⟨rfl, rfl⟩

/-- C1 witness: the amended theorem applied at the concrete record and
engine. -/
theorem c1_witness :
    containerCreate c1Record c1Engine =
      (some ("cannot start container: " ++ "docker start failed"), c1Record) :=
  (c1_amended c1Record c1Engine "test-id" "docker start failed" (by rfl) rfl rfl).1 rfl

/-! ### Claim C3: volume and network up-to-date verdicts -/

theorem mapsEqual_iff {a b : List (String × String)}
    (hna : (a.map Prod.fst).Nodup) (hnb : (b.map Prod.fst).Nodup)
    (hv : ∀ kv ∈ a, kv.2 ≠ "") :
    mapsEqual a b = true ↔ ∀ k, lookupMap a k = lookupMap b k := by
  simp only [mapsEqual, Bool.and_eq_true, beq_iff_eq, List.all_eq_true]
  constructor
  · rintro ⟨hl, hall⟩ k
    have hsub : ∀ kv ∈ a, lookupMap b kv.1 = some kv.2 := by
      intro kv hkv
      have hne := hv kv hkv
      have hkv2 := hall kv hkv
      cases hlb : lookupMap b kv.1 with
      | none => rw [hlb] at hkv2; exact absurd hkv2.symm (by simpa using hne)
      | some w => rw [hlb] at hkv2; simp only [Option.getD_some] at hkv2; rw [hkv2]
    have hkeys : ∀ x, x ∈ a.map Prod.fst ↔ x ∈ b.map Prod.fst := by
      have hssub : (a.map Prod.fst).toFinset ⊆ (b.map Prod.fst).toFinset := by
        intro x hx
        rw [List.mem_toFinset] at hx ⊢
        obtain ⟨kv, hkv, hfst⟩ := List.mem_map.mp hx
        have := hsub kv hkv
        rw [hfst] at this
        rw [← lookupMap_isSome_iff]
        simp [this]
      have hcard : ((b.map Prod.fst).toFinset).card ≤ ((a.map Prod.fst).toFinset).card := by
        rw [List.toFinset_card_of_nodup hna, List.toFinset_card_of_nodup hnb]
        simp [hl]
      have := Finset.eq_of_subset_of_card_le hssub hcard
      intro x
      rw [← List.mem_toFinset, ← List.mem_toFinset, this]
    cases hla : lookupMap a k with
    | some v =>
      have := hsub (k, v) (lookupMap_mem hla)
      exact this.symm
    | none =>
      cases hlb : lookupMap b k with
      | none => rfl
      | some w =>
        have hb : k ∈ b.map Prod.fst := by
          rw [← lookupMap_isSome_iff]
          simp [hlb]
        have ha : k ∈ a.map Prod.fst := (hkeys k).mpr hb
        rw [← lookupMap_isSome_iff] at ha
        rw [hla] at ha
        simp at ha
  · intro heq
    have hmemiff : ∀ x, x ∈ a.map Prod.fst ↔ x ∈ b.map Prod.fst := by
      intro x
      rw [← lookupMap_isSome_iff, ← lookupMap_isSome_iff, heq x]
    constructor
    · have hfs : (a.map Prod.fst).toFinset = (b.map Prod.fst).toFinset := by
        apply Finset.ext
        intro x
        rw [List.mem_toFinset, List.mem_toFinset]
        exact hmemiff x
      have := congrArg Finset.card hfs
      rw [List.toFinset_card_of_nodup hna, List.toFinset_card_of_nodup hnb] at this
      simpa using this
    · intro kv hkv
      have := lookupMap_of_mem_nodup hna hkv
      rw [heq kv.1] at this
      simp [this]

/-- C3 (amended): for volumes the verdict is true exactly when the driver
matches (default "local") and the observed and desired label maps are equal
as maps — an observed strict superset of the desired labels is rejected, not
accepted; for networks the internal/attachable/enableIPv6 flags must match
as well. (Stated for maps with distinct keys and non-empty observed label
values, where Go map indexing is faithfully an association-list lookup.) -/
theorem c3_amended :
    (∀ (spec : VolumeParameters) (vol : VolumeObs),
      (vol.labels.map Prod.fst).Nodup → (spec.labels.map Prod.fst).Nodup →
      (∀ kv ∈ vol.labels, kv.2 ≠ "") →
      (volumeIsUpToDate spec vol = true ↔
        (vol.driver = getStringValue spec.driver "local" ∧
         ∀ k, lookupMap vol.labels k = lookupMap spec.labels k))) ∧
    (∀ (spec : NetworkParameters) (net : NetworkObs),
      (net.labels.map Prod.fst).Nodup → (spec.labels.map Prod.fst).Nodup →
      (∀ kv ∈ net.labels, kv.2 ≠ "") →
      (networkIsUpToDate spec net = true ↔
        (net.driver = getStringValue spec.driver "bridge" ∧
         net.internal = getBoolValue spec.internal false ∧
         net.attachable = getBoolValue spec.attachable false ∧
         net.enableIPv6 = getBoolValue spec.enableIPv6 false ∧
         ∀ k, lookupMap net.labels k = lookupMap spec.labels k))) := by
  constructor
  · intro spec vol hna hnb hv
    simp only [volumeIsUpToDate]
    by_cases hdr : vol.driver = getStringValue spec.driver "local"
    · rw [if_neg (by simp [hdr])]
      rw [mapsEqual_iff hna hnb hv]
      simp [hdr]
    · rw [if_pos (by simp [hdr])]
      simp [hdr]
  · intro spec net hna hnb hv
    simp only [networkIsUpToDate]
    by_cases hdr : net.driver = getStringValue spec.driver "bridge"
    case neg => rw [if_pos (by simp [hdr])]; simp [hdr]
    case pos =>
    rw [if_neg (by simp [hdr])]
    by_cases hint : net.internal = getBoolValue spec.internal false
    case neg => rw [if_pos (by simp [hint])]; simp [hdr, hint]
    case pos =>
    rw [if_neg (by simp [hint])]
    by_cases hatt : net.attachable = getBoolValue spec.attachable false
    case neg => rw [if_pos (by simp [hatt])]; simp [hdr, hint, hatt]
    case pos =>
    rw [if_neg (by simp [hatt])]
    by_cases hv6 : net.enableIPv6 = getBoolValue spec.enableIPv6 false
    case neg => rw [if_pos (by simp [hv6])]; simp [hdr, hint, hatt, hv6]
    case pos =>
    rw [if_neg (by simp [hv6])]
    rw [mapsEqual_iff hna hnb hv]
    simp [hdr, hint, hatt, hv6]

/-- Desired volume spec for the C3 counterexample. -/
def c3Spec : VolumeParameters := { name := none, driver := none, labels := [("a", "1")] }

/-- Observed volume for the C3 counterexample: labels are a strict superset
of the desired labels. -/
def c3Vol : VolumeObs := { name := "v", driver := "local", labels := [("a", "1"), ("b", "2")] }

/-- C3 counterexample: the driver matches and every desired label appears in
the observed labels with an identical value (observed is a strict superset),
so the claim says the verdict is true — but the code returns false, because
`mapsEqual` requires equal map sizes. -/
theorem c3_counterexample :
    volumeIsUpToDate c3Spec c3Vol = false ∧
    c3Vol.driver = getStringValue c3Spec.driver "local" ∧
    (∀ kv ∈ c3Spec.labels, lookupMap c3Vol.labels kv.1 = some kv.2) := by
  decide

/-- Desired volume spec for the C3 witness. -/
def c3WSpec : VolumeParameters := { name := none, driver := some "local", labels := [("a", "1")] }

/-- Observed volume for the C3 witness: exactly the desired labels. -/
def c3WVol : VolumeObs := { name := "v", driver := "local", labels := [("a", "1")] }

/-- C3 witness: the amended theorem applied at a concrete equal pair. -/
theorem c3_witness : volumeIsUpToDate c3WSpec c3WVol = true :=
  (c3_amended.1 c3WSpec c3WVol (by decide) (by decide) (by decide)).mpr
    ⟨rfl, fun _ => rfl⟩

/-! ### Claim C5: compose stack naming and labels -/

/-- C5: evaluation at the failing input. The engine container name for
service "web" of project "test-stack" is computed from the decomposed
resource's name "test-stack-web" (set by `convertService`), yielding
"test-stack_test-stack-web_1" instead of the documented and unit-tested
"test-stack_web_1"; volume naming and the two compose labels behave as
claimed. -/
theorem c5_code_eval :
    engineNameForService "test-stack" "web" = "test-stack_test-stack-web_1" ∧
    getContainerName "test-stack" "web" = "test-stack_web_1" ∧
    engineNameForService "test-stack" "web" ≠ getContainerName "test-stack" "web" ∧
    convertVolumeDefName "test-stack" "data" = "test-stack_data" ∧
    lookupMap (composeContainerLabels "test-stack" [] (some "web"))
      "com.docker.compose.project" = some "test-stack" ∧
    lookupMap (composeContainerLabels "test-stack" [] (some "web"))
      "com.docker.compose.service" = some "web" := by
  decide

/-! ### Claim C6: the environment diff is a superset check -/

/-- C6: the environment check succeeds if and only if every declared entry
with a literal value appears in the map built from the observed entries with
an identical value; declared entries without a literal value (those carrying
an external valueFrom reference, or nothing) and observed entries outside
the declared set are unconstrained, so an observed superset is accepted. -/
theorem c6_env_iff (expected : List EnvVar) (actual : List String) :
    isEnvironmentUpToDate expected actual = true ↔
      ∀ e ∈ expected, ∀ v, e.value = some v →
        lookupMap (buildEnvMap actual) e.name = some v := by
  simp only [isEnvironmentUpToDate, List.all_eq_true]
  constructor
  · intro h e he v hv
    have hb := h e he
    rw [hv] at hb
    cases hl : lookupMap (buildEnvMap actual) e.name with
    | none => rw [hl] at hb; simp at hb
    | some w =>
      rw [hl] at hb
      simp only [beq_iff_eq] at hb
      rw [hb]
  · intro h e he
    cases hv : e.value with
    | none => simp
    | some v =>
      have := h e he v hv
      simp [this]

/-- C6 witness: the spec's superset example — observed {A=1,B=2} against
declared {A=1} is up to date. -/
theorem c6_witness :
    isEnvironmentUpToDate [{ name := "A", value := some "1", valueFrom := none }]
      ["A=1", "B=2"] = true := by
  refine (c6_env_iff _ _).mpr ?_
  intro e he v hv
  rw [List.mem_singleton] at he
  subst he
  simp only at hv
  have h2 : v = "1" := by
    injection hv with h
    exact h.symm
  subst h2
  decide

/-! ### Claim C7: image mismatch dominates; ports and liveness ignored -/

/-- Replaces the observed ports and the running flag plus status string; all
fields the diff predicate reads are untouched. -/
def withPortsAndRunning (info : InspectResponse) (ports : List (String × List PortBinding))
    (running : Bool) (status : String) : InspectResponse :=
  let newState := info.state.map fun st => { st with running := running, status := status }
  { info with ports := ports, state := newState }

/-- C7: an observed image differing from the desired image forces "not up to
date" whatever the other fields hold, and the predicate never consults the
declared ports or the observed running/stopped status: replacing them leaves
the verdict unchanged. -/
theorem c7_image_ports_running (p : ContainerParameters) (info : InspectResponse) :
    (info.configImage ≠ p.image → isUpToDate p info = false) ∧
    (∀ declaredPorts ports running status,
      isUpToDate { p with ports := declaredPorts }
          (withPortsAndRunning info ports running status) =
        isUpToDate p info) := by
  constructor
  · intro hne
    simp [isUpToDate, hne]
  · intro declaredPorts ports running status
    cases hst : info.state with
    | none =>
      simp [isUpToDate, withPortsAndRunning, restartPolicyOk, privilegedOk, healthOk, hst]
    | some st =>
      simp [isUpToDate, withPortsAndRunning, restartPolicyOk, privilegedOk, healthOk, hst]

/-- Desired spec for the C7 witness. -/
def c7Params : ContainerParameters := { baseParams with image := "nginx:1.21" }

/-- Observed container for the C7 witness: image differs, all else trivial. -/
def c7Info : InspectResponse :=
  { id := "cid", name := "/c", configImage := "nginx:1.20", configEnv := [], configLabels := [],
    hostConfig := none, state := none, ports := [] }

/-- C7 witness: the theorem applied at the spec's image-mismatch example. -/
theorem c7_witness : isUpToDate c7Params c7Info = false :=
  (c7_image_ports_running c7Params c7Info).1 (by decide)

/-! ### Claim C9: Delete semantics -/

/-- A call result Delete tolerates for containers: success or not-found. -/
def NotFoundOrOk (r : Option String) : Prop :=
  ∀ e, r = some e → isNotFound e = true

/-- A call result Delete tolerates for volumes: success or not-found. -/
def NotFoundOrOkVol (r : Option String) : Prop :=
  ∀ e, r = some e → isNotFoundError e = true

/-- C9: with no stored marker, container and volume Delete succeed without
issuing any engine call; with a marker, container Delete first issues a stop
with a ten-second bound and succeeds exactly when both the stop and the
removal results are success-or-not-found; volume Delete succeeds exactly
when the removal result is success-or-not-found. -/
theorem c9_delete_spec (cr : ContainerRecord) (eng : ContainerEngine)
    (vn : String) (veng : VolumeEngine) :
    ((lookupMap cr.annotations extNameKey).getD "" = "" →
      containerDelete cr eng = (none, [])) ∧
    (∀ cid, (lookupMap cr.annotations extNameKey).getD "" = cid → cid ≠ "" →
      (((containerDelete cr eng).1 = none) ↔
        (NotFoundOrOk eng.stopResult ∧ NotFoundOrOk eng.removeResult)) ∧
      (containerDelete cr eng).2.head? = some (.stop cid 10)) ∧
    (vn = "" → volumeDelete vn veng = (none, [])) ∧
    (vn ≠ "" → (((volumeDelete vn veng).1 = none) ↔ NotFoundOrOkVol veng.removeResult)) := by
  refine ⟨?_, ?_, ?_, ?_⟩
  · intro h
    simp [containerDelete, h]
  · intro cid hcid hne
    obtain ⟨ins, cre, sta, sto, rem⟩ := eng
    cases sto with
    | none =>
      cases rem with
      | none =>
        simp [containerDelete, containerDeleteRemove, hcid, hne, NotFoundOrOk]
      | some e2 =>
        cases hnf2 : isNotFound e2 with
        | true =>
          simp [containerDelete, containerDeleteRemove, hcid, hne, NotFoundOrOk, hnf2]
        | false =>
          simp [containerDelete, containerDeleteRemove, hcid, hne, NotFoundOrOk, hnf2]
    | some e =>
      cases hnf : isNotFound e with
      | true =>
        cases rem with
        | none =>
          simp [containerDelete, containerDeleteRemove, hcid, hne, NotFoundOrOk, hnf]
        | some e2 =>
          cases hnf2 : isNotFound e2 with
          | true =>
            simp [containerDelete, containerDeleteRemove, hcid, hne, NotFoundOrOk, hnf, hnf2]
          | false =>
            simp [containerDelete, containerDeleteRemove, hcid, hne, NotFoundOrOk, hnf, hnf2]
      | false =>
        simp [containerDelete, containerDeleteRemove, hcid, hne, NotFoundOrOk, hnf]
  · intro h
    simp [volumeDelete, h]
  · intro hne
    obtain ⟨rem⟩ := veng
    cases rem with
    | none =>
      simp [volumeDelete, hne, NotFoundOrOkVol]
    | some e =>
      cases hnf : isNotFoundError e with
      | true =>
        simp [volumeDelete, hne, NotFoundOrOkVol, hnf]
      | false =>
        simp [volumeDelete, hne, NotFoundOrOkVol, hnf]

/-- Records and engines for the C9 witness. -/
def c9Rec : ContainerRecord := { annotations := [], params := baseParams }

/-- Engine for the C9 witness (never reached: no marker stored). -/
def c9Eng : ContainerEngine :=
  { inspectResult := .error "u", createResult := .error "u", startResult := none,
    stopResult := none, removeResult := none }

/-- Volume engine for the C9 witness: removal reports not-found. -/
def c9VEng : VolumeEngine := { removeResult := some "volume xyz not found" }

/-- C9 witness: trivial container delete with no marker, and a volume delete
whose removal error is a not-found, both succeeding via the theorem. -/
theorem c9_witness :
    containerDelete c9Rec c9Eng = (none, []) ∧ (volumeDelete "v1" c9VEng).1 = none := by
  constructor
  · exact (c9_delete_spec c9Rec c9Eng "v1" c9VEng).1 rfl
  · refine ((c9_delete_spec c9Rec c9Eng "v1" c9VEng).2.2.2 (by decide)).mpr ?_
    intro e he
    have h2 : "volume xyz not found" = e := by injection he
    rw [← h2]
    decide

/-! ### Claim C10: not-found classification by substring matching -/

/-- C10: an error is classified not-found exactly when its lower-cased
message contains the listed substrings ("not found" or "no such container"
for containers; additionally "no such" or "404" for volumes/networks), and
under that classification an inspect error makes Observe report "does not
exist" and a removal (or stop) error makes Delete succeed. -/
theorem c10_notfound_spec (m : String) (cr : ContainerRecord) (eng : ContainerEngine)
    (vn : String) (veng : VolumeEngine) :
    (isNotFound m = true ↔
      (IsSubstrOf ("not found".data) (goToLower m).data ∨
       IsSubstrOf ("no such container".data) (goToLower m).data)) ∧
    (isNotFoundError m = true ↔
      (IsSubstrOf ("not found".data) (goToLower m).data ∨
       IsSubstrOf ("no such".data) (goToLower m).data ∨
       IsSubstrOf ("404".data) (goToLower m).data)) ∧
    ((lookupMap cr.annotations extNameKey).getD "" ≠ "" →
      eng.inspectResult = .error m → isNotFound m = true →
      containerObserve cr eng = .ok { resourceExists := false, resourceUpToDate := false }) ∧
    ((lookupMap cr.annotations extNameKey).getD "" ≠ "" →
      eng.stopResult = none → eng.removeResult = some m → isNotFound m = true →
      (containerDelete cr eng).1 = none) ∧
    (vn ≠ "" → veng.removeResult = some m → isNotFoundError m = true →
      (volumeDelete vn veng).1 = none) := by
  refine ⟨?_, ?_, ?_, ?_, ?_⟩
  · simp only [isNotFound, Bool.or_eq_true, strContains_iff]
  · simp only [isNotFoundError, Bool.or_eq_true, strContains_iff, or_assoc]
  · intro hne hins hnf
    rw [containerObserve, if_neg (by simp [hne]), hins]
    simp [hnf]
  · intro hne hstop hrem hnf
    rw [containerDelete, if_neg (by simp [hne]), hstop]
    simp [containerDeleteRemove, hrem, hnf]
  · intro hne hrem hnf
    rw [volumeDelete, if_neg (by simp [hne]), hrem]
    simp [hnf]

/-- Record with a stored marker for the C10 witness. -/
def c10Rec : ContainerRecord := { annotations := [(extNameKey, "cid")], params := baseParams }

/-- Engine whose inspect fails with a mixed-case no-such-container message. -/
def c10Eng : ContainerEngine :=
  { inspectResult := .error "Error: No Such Container: abc", createResult := .error "u",
    startResult := none, stopResult := none, removeResult := none }

/-- Unused volume engine for the C10 witness instantiation. -/
def c10VEng : VolumeEngine := { removeResult := none }

/-- C10 witness: the mixed-case inspect error is classified not-found by
substring matching, so Observe reports "does not exist". -/
theorem c10_witness :
    containerObserve c10Rec c10Eng = .ok { resourceExists := false, resourceUpToDate := false } :=
  (c10_notfound_spec "Error: No Such Container: abc" c10Rec c10Eng "v" c10VEng).2.2.1
    (by decide) rfl (by decide)

end ProviderDocker
